import Mathlib

/-!
Verification development for the `card` command-line client (src/main.rs).

The Rust source is shallowly embedded: structs become structures, serde
derives become explicit JSON (de)serializers following the derive semantics
(field order, `rename` attributes, `Option` fields treated as optional),
and the effectful pieces (environment variables, filesystem, network,
browser, password prompt) are passed in explicitly as a `World` value.
Machine integers (`u32`, `i32`) are modelled as `Nat`/`Int` with explicit
range checks at the decode boundary; no arithmetic is performed on them.
-/

/-- Single-quote character, used to build message strings that contain one. -/
def squote : String := String.singleton (Char.ofNat 39)

/-- Left curly brace character (used when modelling raw JSON text). -/
def lbrace : Char := Char.ofNat 123

/-- Right curly brace character. -/
def rbrace : Char := Char.ofNat 125

/-- JSON documents, as produced and consumed by serde_json. Objects keep
their fields in order; numbers are modelled as integers, the only kind the
schema of this program uses (`u32` and `i32` fields). -/
inductive Json where
  | null : Json
  | bool : Bool → Json
  | num : Int → Json
  | str : String → Json
  | arr : List Json → Json
  | obj : List (String × Json) → Json

/-- Funding record (main.rs lines 52-62). `funding_type` has wire name
`type` via the serde rename attribute; `nickname` is an `Option`. -/
structure Funding where
  created : String
  token : String
  funding_type : String
  state : String
  nickname : Option String
  account_name : String
  last_four : String
deriving DecidableEq

/-- Card record (main.rs lines 32-50). `card_type` has wire name `type`;
`pan` and `cvv` are optional sensitive strings; `spend_limit` is a `u32`,
modelled as `Nat` (range-checked at the decode boundary). -/
structure Card where
  created : String
  token : String
  last_four : String
  hostname : String
  memo : String
  card_type : String
  spend_limit : Nat
  spend_limit_duration : String
  state : String
  funding : Funding
  auth_rule_tokens : List String
  pan : Option String
  cvv : Option String
  exp_month : String
  exp_year : String
deriving DecidableEq

/-- Cards page (main.rs lines 25-30): `data`, `total_pages`, `page`
(`i32` fields modelled as `Int`). -/
structure Cards where
  data : List Card
  total_pages : Int
  page : Int
deriving DecidableEq

/-- Outbound creation payload (main.rs lines 64-72). `card_type` has wire
name `type`. -/
structure CardCreationPayload where
  card_type : String
  memo : String
  spend_limit : Nat
  spend_limit_duration : String
  state : String
deriving DecidableEq

/-- Serde serialization of `CardCreationPayload` (derive `Serialize` on
main.rs lines 64-72): an object with the five fields in declaration order,
`card_type` emitted under the wire name `type`. -/
def CardCreationPayload.toJson (p : CardCreationPayload) : Json :=
  Json.obj
    [("type", Json.str p.card_type),
     ("memo", Json.str p.memo),
     ("spend_limit", Json.num (p.spend_limit : Int)),
     ("spend_limit_duration", Json.str p.spend_limit_duration),
     ("state", Json.str p.state)]

/-- Look up a required string field, as derived serde Deserialize does:
missing field or wrong type is a decode error. -/
def reqStr (o : List (String × Json)) (k : String) : Except String String :=
  match o.lookup k with
  | some (Json.str s) => Except.ok s
  | some _ => Except.error ("invalid type for field " ++ k)
  | none => Except.error ("missing field " ++ k)

/-- Look up an `Option String` field: serde treats a missing field or an
explicit `null` as `None`. -/
def optStr (o : List (String × Json)) (k : String) : Except String (Option String) :=
  match o.lookup k with
  | some (Json.str s) => Except.ok (some s)
  | some Json.null => Except.ok none
  | some _ => Except.error ("invalid type for field " ++ k)
  | none => Except.ok none

/-- Look up a required `u32` field: an integral JSON number in
`[0, 2^32)`. -/
def reqU32 (o : List (String × Json)) (k : String) : Except String Nat :=
  match o.lookup k with
  | some (Json.num n) =>
      if 0 ≤ n ∧ n < 4294967296 then Except.ok n.toNat
      else Except.error ("invalid value for field " ++ k)
  | some _ => Except.error ("invalid type for field " ++ k)
  | none => Except.error ("missing field " ++ k)

/-- Look up a required `i32` field: an integral JSON number in
`[-2^31, 2^31)`. -/
def reqI32 (o : List (String × Json)) (k : String) : Except String Int :=
  match o.lookup k with
  | some (Json.num n) =>
      if -2147483648 ≤ n ∧ n < 2147483648 then Except.ok n
      else Except.error ("invalid value for field " ++ k)
  | some _ => Except.error ("invalid type for field " ++ k)
  | none => Except.error ("missing field " ++ k)

/-- Look up a required `Vec<String>` field. -/
def reqStrList (o : List (String × Json)) (k : String) : Except String (List String) :=
  match o.lookup k with
  | some (Json.arr items) =>
      items.mapM fun j =>
        match j with
        | Json.str s => Except.ok s
        | _ => Except.error ("invalid type inside field " ++ k)
  | some _ => Except.error ("invalid type for field " ++ k)
  | none => Except.error ("missing field " ++ k)

/-- Serde deserialization of `Funding` (derive `Deserialize` on main.rs
lines 52-62): all fields required except `nickname`; `funding_type` read
from wire name `type`; unknown fields ignored. -/
def Funding.fromJson : Json → Except String Funding
  | Json.obj o => do
      let created ← reqStr o "created"
      let token ← reqStr o "token"
      let funding_type ← reqStr o "type"
      let state ← reqStr o "state"
      let nickname ← optStr o "nickname"
      let account_name ← reqStr o "account_name"
      let last_four ← reqStr o "last_four"
      Except.ok ⟨created, token, funding_type, state, nickname, account_name, last_four⟩
  | _ => Except.error "invalid type: expected struct Funding"

/-- Serde deserialization of `Card` (derive `Deserialize` on main.rs lines
32-50): all fields required except `pan` and `cvv`; `card_type` read from
wire name `type`; a missing or ill-typed field fails the whole decode, so
no partially-populated Card is ever produced. -/
def Card.fromJson : Json → Except String Card
  | Json.obj o => do
      let created ← reqStr o "created"
      let token ← reqStr o "token"
      let last_four ← reqStr o "last_four"
      let hostname ← reqStr o "hostname"
      let memo ← reqStr o "memo"
      let card_type ← reqStr o "type"
      let spend_limit ← reqU32 o "spend_limit"
      let spend_limit_duration ← reqStr o "spend_limit_duration"
      let state ← reqStr o "state"
      let funding ←
        match o.lookup "funding" with
        | some j => Funding.fromJson j
        | none => Except.error "missing field funding"
      let auth_rule_tokens ← reqStrList o "auth_rule_tokens"
      let pan ← optStr o "pan"
      let cvv ← optStr o "cvv"
      let exp_month ← reqStr o "exp_month"
      let exp_year ← reqStr o "exp_year"
      Except.ok ⟨created, token, last_four, hostname, memo, card_type, spend_limit,
        spend_limit_duration, state, funding, auth_rule_tokens, pan, cvv,
        exp_month, exp_year⟩
  | _ => Except.error "invalid type: expected struct Card"

/-- Serde deserialization of `Cards` (derive `Deserialize` on main.rs lines
25-30). -/
def Cards.fromJson : Json → Except String Cards
  | Json.obj o => do
      let data ←
        match o.lookup "data" with
        | some (Json.arr items) => items.mapM Card.fromJson
        | some _ => Except.error "invalid type for field data"
        | none => Except.error "missing field data"
      let total_pages ← reqI32 o "total_pages"
      let page ← reqI32 o "page"
      Except.ok ⟨data, total_pages, page⟩
  | _ => Except.error "invalid type: expected struct Cards"

/-- HTTP methods used by the client. -/
inductive Method where
  | GET
  | POST
deriving DecidableEq

/-- An outbound HTTP request as assembled by the client: method, resolved
URL, headers, and optional JSON body. -/
structure HttpRequest where
  method : Method
  url : String
  headers : List (String × String)
  body : Option Json

/-- A raw HTTP response from the remote service. `text` is the raw body
as a string (what `Response::text` yields); `doc` is the JSON document
that text denotes when it is well-formed JSON, `none` otherwise. The
string-to-document parse is serde_json, an external library, so the
network model supplies both views of the body. -/
structure HttpResponse where
  status : Nat
  text : String
  doc : Option Json

/-- Result of a Rust expression that may succeed, return an error through
`Box<dyn Error>`, or panic. -/
inductive Res (α : Type) where
  | ok : α → Res α
  | err : String → Res α
  | panicked : String → Res α

/-- Fixed remote endpoint base (main.rs line 74). -/
def BASE_URL : String := "https://api.privacy.com/v1/"

/-- The API client (main.rs lines 76-79): owns the secret key for its
lifetime. The reqwest `Client` carries no state relevant here. -/
structure ApiClient where
  api_key : String

/-- ApiClient::new (main.rs lines 82-87). -/
def ApiClient.new (api_key : String) : ApiClient := ⟨api_key⟩

/-- Rust `Debug` escaping of one character inside a string, as used by the
`{text:?}` format (covers the escapes relevant to the bodies modelled
here; other printable characters pass through unchanged). -/
def rustDebugEscape (c : Char) : String :=
  if c = '"' then "\\\""
  else if c = '\\' then "\\\\"
  else if c = '\n' then "\\n"
  else if c = '\t' then "\\t"
  else if c = '\r' then "\\r"
  else String.singleton c

/-- Rust `Debug` formatting of a string: surrounding quotes plus per-char
escaping, as printed by `println!` with the `:?` format. -/
def rustDebugFormat (s : String) : String :=
  "\"" ++ String.join (s.toList.map rustDebugEscape) ++ "\""

/-- The request assembled by `ApiClient::request` before sending (main.rs
lines 95-107): the endpoint is resolved against the fixed base URL (the
base ends in a slash and the endpoints used are plain relative names, for
which RFC 3986 join is concatenation), the `Authorization: api-key
<secret>` header is attached, and the optional body is serialized to
JSON. -/
def ApiClient.build_request (c : ApiClient) (method : Method) (endpoint : String)
    (body : Option Json) : HttpRequest :=
  { method := method
    url := BASE_URL ++ endpoint
    headers := [("Authorization", "api-key " ++ c.api_key)]
    body := body }

/-- ApiClient::request (main.rs lines 89-115): builds the request, sends it
over the network, reads the response text, debug-prints that raw text to
stdout, and then hits the trailing `todo!()` and panics with `not yet
implemented`; the `Ok(response)` line below it is commented out in the
source. Returns the outcome together with the network calls made and the
stdout lines printed. -/
def ApiClient.request (c : ApiClient) (net : HttpRequest → HttpResponse)
    (method : Method) (endpoint : String) (body : Option Json) :
    Res HttpResponse × List HttpRequest × List String :=
  let req := c.build_request method endpoint body
  let resp := net req
  (Res.panicked "not yet implemented", [req], [rustDebugFormat resp.text])

/-- ApiClient::get (main.rs lines 117-119). -/
def ApiClient.get (c : ApiClient) (net : HttpRequest → HttpResponse)
    (endpoint : String) : Res HttpResponse × List HttpRequest × List String :=
  c.request net Method.GET endpoint none

/-- ApiClient::post (main.rs lines 121-123). -/
def ApiClient.post (c : ApiClient) (net : HttpRequest → HttpResponse)
    (endpoint : String) (body : Json) :
    Res HttpResponse × List HttpRequest × List String :=
  c.request net Method.POST endpoint (some body)

/-- Model of reqwest `Response::json::<T>()`: decode the JSON document the
body denotes, failing when the body is not well-formed JSON or when the
typed decode fails. -/
def responseDecode {α : Type} (fromJson : Json → Except String α)
    (resp : HttpResponse) : Res α :=
  match resp.doc with
  | none => Res.err "error decoding response body"
  | some j =>
      match fromJson j with
      | Except.ok a => Res.ok a
      | Except.error e => Res.err e

/-- ApiClient::list (main.rs lines 124-130): GET `cards`, then decode the
body into `Cards`; transport errors and panics propagate unchanged. -/
def ApiClient.list (c : ApiClient) (net : HttpRequest → HttpResponse) :
    Res Cards × List HttpRequest × List String :=
  match c.get net "cards" with
  | (Res.ok resp, calls, out) => (responseDecode Cards.fromJson resp, calls, out)
  | (Res.err e, calls, out) => (Res.err e, calls, out)
  | (Res.panicked m, calls, out) => (Res.panicked m, calls, out)

/-- ApiClient::create_card (main.rs lines 132-136): POST the payload as
JSON to `cards`, then decode the body into `Card`. -/
def ApiClient.create_card (c : ApiClient) (net : HttpRequest → HttpResponse)
    (payload : CardCreationPayload) :
    Res Card × List HttpRequest × List String :=
  match c.post net "cards" payload.toJson with
  | (Res.ok resp, calls, out) => (responseDecode Card.fromJson resp, calls, out)
  | (Res.err e, calls, out) => (Res.err e, calls, out)
  | (Res.panicked m, calls, out) => (Res.panicked m, calls, out)

/-- Result of reading one path in the modelled filesystem: the file may be
absent, unreadable (permissions and the like), or present with contents. -/
inductive FileState where
  | absent
  | unreadable (err : String)
  | file (contents : String)
deriving DecidableEq

/-- The process environment variables consulted by path resolution. -/
structure Env where
  xdg_data_home : Option String
  home : Option String

/-- get_xdg_data_home (main.rs lines 139-150): when `XDG_DATA_HOME` is set
its value is returned verbatim; only in the `HOME` fallback is
`.local/share/card/key` pushed onto the home directory; `none` when
neither variable is set. -/
def get_xdg_data_home (env : Env) : Option String :=
  match env.xdg_data_home with
  | some v => some v
  | none =>
      match env.home with
      | some home => some (home ++ "/.local/share/card/key")
      | none => none

/-- Path::exists as used by the handlers before reading the key file. -/
def fsExists (fs : String → FileState) (path : String) : Bool :=
  match fs path with
  | FileState.absent => false
  | _ => true

/-- fs::read_to_string on one path of the modelled filesystem (the load
half of the credential store). -/
def fsLoad (fs : String → FileState) (path : String) : Except String String :=
  match fs path with
  | FileState.file c => Except.ok c
  | FileState.unreadable e => Except.error e
  | FileState.absent => Except.error "No such file or directory (os error 2)"

/-- fs::write on one path: the secret becomes the entire contents of the
file, overwriting whatever was there (the save half of the credential
store, main.rs line 204). -/
def fsWrite (fs : String → FileState) (path contents : String) : String → FileState :=
  fun p => if p = path then FileState.file contents else fs p

/-- How one process invocation terminates: normally, by the argument
parser printing usage and exiting, or by a panic. -/
inductive ProcOutcome where
  | ok
  | usageExit
  | panicked (msg : String)
deriving DecidableEq

/-- Observable behaviour of one command-handler run: stdout lines, stderr
lines, network calls issued, and how the run terminated. -/
structure FlowResult where
  stdout : List String
  stderr : List String
  calls : List HttpRequest
  outcome : ProcOutcome

/-- Everything the process reads from the outside world in one run:
environment variables, filesystem, network, whether the browser opens, the
secret the user types at the hidden prompt, and the results of the
directory-creation and file-write calls in the auth flow (`none` means
success). -/
structure World where
  env : Env
  fs : String → FileState
  net : HttpRequest → HttpResponse
  browserOpens : Bool
  typedSecret : String
  mkdirErr : Option String
  writeErr : Option String

/-- Guidance printed when the key file is absent (main.rs lines 173, 234). -/
def guidanceMsg : String :=
  "Please run " ++ squote ++ "card auth" ++ squote ++ " to login to privacy.com"

/-- Message printed when neither environment variable resolves (main.rs
lines 176, 209, 237). -/
def xdgMsg : String := "Cannot determine XDG data directory."

/-- The open-state filtering of the default flow (main.rs lines 159-162):
`filter_map` keeping exactly the cards whose `state` equals `"OPEN"`. -/
def openCards (cards : Cards) : List Card :=
  cards.data.filter fun card => card.state == "OPEN"

/-- The lines the default flow prints on a successful list (main.rs lines
163-165): each surviving card, one memo per line, in order. -/
def defaultMemoLines (cards : Cards) : List String :=
  (openCards cards).map fun card => card.memo

/-- handle_default_command (main.rs lines 152-178): resolve the key path,
print guidance when the file is absent, report a read error on stderr,
and otherwise list cards, filter to open ones and print their memos. The
`unwrap` on the list call turns an error into a panic. -/
def handle_default_command (w : World) : FlowResult :=
  match get_xdg_data_home w.env with
  | some path =>
      if fsExists w.fs path then
        match fsLoad w.fs path with
        | Except.ok content =>
            match (ApiClient.new content).list w.net with
            | (Res.ok cards, calls, out) =>
                ⟨out ++ defaultMemoLines cards, [], calls, ProcOutcome.ok⟩
            | (Res.err e, calls, out) =>
                ⟨out, [], calls,
                  ProcOutcome.panicked ("called Result::unwrap() on an Err value: " ++ e)⟩
            | (Res.panicked m, calls, out) => ⟨out, [], calls, ProcOutcome.panicked m⟩
        | Except.error e => ⟨[], ["Error reading key file: " ++ e], [], ProcOutcome.ok⟩
      else ⟨[guidanceMsg], [], [], ProcOutcome.ok⟩
  | none => ⟨[xdgMsg], [], [], ProcOutcome.ok⟩

/-- The payload the create flow builds (main.rs lines 219-225): fixed
policy values, with the memo and spend limit taken from the arguments. -/
def creationPayload (name : String) (amount : Nat) : CardCreationPayload :=
  { card_type := "SINGLE_USE"
    memo := name
    spend_limit := amount
    spend_limit_duration := "TRANSACTION"
    state := "OPEN" }

/-- handle_create_command (main.rs lines 213-239): same credential
branching as the default flow; on success builds the payload, calls
create_card (whose `unwrap` turns an error into a panic) and prints a
confirmation. -/
def handle_create_command (w : World) (name : String) (amount : Nat) : FlowResult :=
  match get_xdg_data_home w.env with
  | some path =>
      if fsExists w.fs path then
        match fsLoad w.fs path with
        | Except.ok content =>
            match (ApiClient.new content).create_card w.net (creationPayload name amount) with
            | (Res.ok _card, calls, out) =>
                ⟨out ++ ["Card created"], [], calls, ProcOutcome.ok⟩
            | (Res.err e, calls, out) =>
                ⟨out, [], calls,
                  ProcOutcome.panicked ("called Result::unwrap() on an Err value: " ++ e)⟩
            | (Res.panicked m, calls, out) => ⟨out, [], calls, ProcOutcome.panicked m⟩
        | Except.error e => ⟨[], ["Error reading key file: " ++ e], [], ProcOutcome.ok⟩
      else ⟨[guidanceMsg], [], [], ProcOutcome.ok⟩
  | none => ⟨[xdgMsg], [], [], ProcOutcome.ok⟩

/-- Account URL opened by the auth flow (main.rs line 181). -/
def AUTH_URL : String := "https://app.privacy.com/account"

/-- First line the auth flow prints (main.rs line 183). -/
def openingMsg : String :=
  "Opening " ++ squote ++ AUTH_URL ++ squote ++ " in your browser..."

/-- Prompt printed before the hidden secret input (main.rs line 190). -/
def promptMsg : String := "Enter your secret key: "

/-- Observable behaviour of the auth flow: output, whether the hidden
prompt was reached, the resulting filesystem, and termination. -/
structure AuthResult where
  stdout : List String
  stderr : List String
  prompted : Bool
  fs : String → FileState
  outcome : ProcOutcome

/-- handle_auth_command (main.rs lines 180-211): prints the account URL
line, tries to open the browser — on failure it reports to stderr and
returns at once, before the prompt — otherwise prompts for the secret with
echo suppressed, resolves the path, creates parent directories and writes
the secret. The parent-directory and write failures are taken from the
world (`none` meaning success; a path with no parent behaves like a
successful create_dir_all). -/
def handle_auth_command (w : World) : AuthResult :=
  if w.browserOpens then
    match get_xdg_data_home w.env with
    | some path =>
        match w.mkdirErr with
        | some e =>
            ⟨[openingMsg, promptMsg], ["Failed to create directory: " ++ e], true, w.fs,
              ProcOutcome.ok⟩
        | none =>
            match w.writeErr with
            | some e =>
                ⟨[openingMsg, promptMsg], ["Failed to save key: " ++ e], true, w.fs,
                  ProcOutcome.ok⟩
            | none =>
                ⟨[openingMsg, promptMsg, "Key saved successfully."], [], true,
                  fsWrite w.fs path w.typedSecret, ProcOutcome.ok⟩
    | none => ⟨[openingMsg, promptMsg, xdgMsg], [], true, w.fs, ProcOutcome.ok⟩
  else ⟨[openingMsg], ["Failed to open the authentication URL."], false, w.fs, ProcOutcome.ok⟩

/-- The structopt command surface (main.rs lines 8-23). -/
inductive CommandCard where
  | default
  | auth
  | create (name : String) (amount : Nat)
deriving DecidableEq

/-- Structopt parse of the arguments after the program name: the
subcommands `default`, `auth`, and `create <name> <amount>` with the
amount a `u32`; anything else is a usage error (clap prints usage and
exits, abstracted as `none` here). -/
def CommandCard.from_args (args : List String) : Option CommandCard :=
  match args with
  | ["default"] => some CommandCard.default
  | ["auth"] => some CommandCard.auth
  | ["create", name, amount] =>
      match amount.toNat? with
      | some a => if a < 4294967296 then some (CommandCard.create name a) else none
      | none => none
  | _ => none

/-- Observable behaviour of one whole process run. -/
structure MainResult where
  stdout : List String
  stderr : List String
  calls : List HttpRequest
  fs : String → FileState
  prompted : Bool
  outcome : ProcOutcome

/-- Lift a list/create flow result to a whole-run result (those flows never
touch the filesystem or the prompt). -/
def flowToMain (w : World) (r : FlowResult) : MainResult :=
  ⟨r.stdout, r.stderr, r.calls, w.fs, false, r.outcome⟩

/-- Lift an auth flow result to a whole-run result (the auth flow makes no
network calls). -/
def authToMain (r : AuthResult) : MainResult :=
  ⟨r.stdout, r.stderr, [], r.fs, r.prompted, r.outcome⟩

/-- main (main.rs lines 241-258): with at most one argument (the program
name) the default flow runs directly; otherwise the arguments are parsed,
and the `Default` variant is dispatched to `unreachable!()`, which
panics. -/
def mainRun (argv : List String) (w : World) : MainResult :=
  if argv.length ≤ 1 then flowToMain w (handle_default_command w)
  else
    match CommandCard.from_args (argv.drop 1) with
    | none => ⟨[], [], [], w.fs, false, ProcOutcome.usageExit⟩
    | some CommandCard.default =>
        ⟨[], [], [], w.fs, false,
          ProcOutcome.panicked "internal error: entered unreachable code"⟩
    | some CommandCard.auth => authToMain (handle_auth_command w)
    | some (CommandCard.create name amount) =>
        flowToMain w (handle_create_command w name amount)

/-- Funding object of the sample well-formed list response (all required
fields present, `nickname` absent). -/
def fundingJsonC1 : Json := Json.obj
  [("created", Json.str "2024-01-01"),
   ("token", Json.str "fund_tok"),
   ("type", Json.str "DEPOSITORY_CHECKING"),
   ("state", Json.str "ENABLED"),
   ("account_name", Json.str "Checking"),
   ("last_four", Json.str "6789")]

/-- Card object of the sample well-formed list response (every required
field present, `pan` and `cvv` absent). -/
def cardJsonC1 : Json := Json.obj
  [("created", Json.str "2024-01-02"),
   ("token", Json.str "card_tok"),
   ("last_four", Json.str "1234"),
   ("hostname", Json.str ""),
   ("memo", Json.str "Groceries"),
   ("type", Json.str "SINGLE_USE"),
   ("spend_limit", Json.num 5000),
   ("spend_limit_duration", Json.str "TRANSACTION"),
   ("state", Json.str "OPEN"),
   ("funding", fundingJsonC1),
   ("auth_rule_tokens", Json.arr [Json.str "ar_1"]),
   ("exp_month", Json.str "06"),
   ("exp_year", Json.str "2027")]

/-- A well-formed `Cards` response document: one card, one page. -/
def cardsDocC1 : Json :=
  Json.obj [("data", Json.arr [cardJsonC1]), ("total_pages", Json.num 1), ("page", Json.num 1)]

/-- The Funding value `fundingJsonC1` decodes to. -/
def fundingValC1 : Funding :=
  ⟨"2024-01-01", "fund_tok", "DEPOSITORY_CHECKING", "ENABLED", none, "Checking", "6789"⟩

/-- The Card value `cardJsonC1` decodes to. -/
def cardValC1 : Card :=
  ⟨"2024-01-02", "card_tok", "1234", "", "Groceries", "SINGLE_USE", 5000, "TRANSACTION",
    "OPEN", fundingValC1, ["ar_1"], none, none, "06", "2027"⟩

/-- The Cards value `cardsDocC1` decodes to. -/
def cardsValC1 : Cards := ⟨[cardValC1], 1, 1⟩

/-- Raw text of the sample well-formed list response (braces written with
escape codes). -/
def cardsTextC1 : String :=
  "\x7b\"data\":[\x7b\"created\":\"2024-01-02\",\"token\":\"card_tok\",\"last_four\":\"1234\",\"hostname\":\"\",\"memo\":\"Groceries\",\"type\":\"SINGLE_USE\",\"spend_limit\":5000,\"spend_limit_duration\":\"TRANSACTION\",\"state\":\"OPEN\",\"funding\":\x7b\"created\":\"2024-01-01\",\"token\":\"fund_tok\",\"type\":\"DEPOSITORY_CHECKING\",\"state\":\"ENABLED\",\"account_name\":\"Checking\",\"last_four\":\"6789\"\x7d,\"auth_rule_tokens\":[\"ar_1\"],\"exp_month\":\"06\",\"exp_year\":\"2027\"\x7d],\"total_pages\":1,\"page\":1\x7d"

/-- Network that answers every request with HTTP 200 and the well-formed
Cards body. -/
def netC1 : HttpRequest → HttpResponse :=
  fun _ => ⟨200, cardsTextC1, some cardsDocC1⟩

/-- Filesystem holding the secret key at one fixed path. -/
def fsWithKey : String → FileState :=
  fun p => if p = "/data/card/key" then FileState.file "sk_live_abc" else FileState.absent

/-- World for the create-payload claim: credential present, trivial
network. -/
def wC2 : World :=
  { env := { xdg_data_home := some "/data/card/key", home := none }
    fs := fsWithKey
    net := fun _ => ⟨200, "ok", none⟩
    browserOpens := true
    typedSecret := ""
    mkdirErr := none
    writeErr := none }

/-- The single request the create flow sends for `create "Groceries" 5000`
with the stored secret. -/
def reqC2 : HttpRequest :=
  ApiClient.build_request (ApiClient.new "sk_live_abc") Method.POST "cards"
    (some ((creationPayload "Groceries" 5000).toJson))

/-- World in which the credential path resolves but the key file is
absent. -/
def wC5 : World :=
  { env := { xdg_data_home := some "/data/card/key", home := none }
    fs := fun _ => FileState.absent
    net := fun _ => ⟨200, "", none⟩
    browserOpens := true
    typedSecret := ""
    mkdirErr := none
    writeErr := none }

/-- Raw text of a create response that reveals the sensitive fields. -/
def bodyC6 : String :=
  "\x7b\"token\":\"tok_123\",\"memo\":\"Groceries\",\"pan\":\"4111111111111111\",\"cvv\":\"123\"\x7d"

/-- The JSON document `bodyC6` denotes. -/
def bodyDocC6 : Json := Json.obj
  [("token", Json.str "tok_123"),
   ("memo", Json.str "Groceries"),
   ("pan", Json.str "4111111111111111"),
   ("cvv", Json.str "123")]

/-- World whose service reveals pan and cvv in the create response. -/
def wC6 : World :=
  { env := { xdg_data_home := some "/data/card/key", home := none }
    fs := fsWithKey
    net := fun _ => ⟨200, bodyC6, some bodyDocC6⟩
    browserOpens := true
    typedSecret := ""
    mkdirErr := none
    writeErr := none }

/-- World in which opening the browser fails during the auth flow. -/
def wC8 : World :=
  { env := { xdg_data_home := some "/data/card/key", home := none }
    fs := fun _ => FileState.absent
    net := fun _ => ⟨200, "", none⟩
    browserOpens := false
    typedSecret := "sk_live_abc"
    mkdirErr := none
    writeErr := none }

/-- World with nothing resolvable, used for the dispatch claim. -/
def wC10 : World :=
  { env := { xdg_data_home := none, home := none }
    fs := fun _ => FileState.absent
    net := fun _ => ⟨200, "", none⟩
    browserOpens := true
    typedSecret := ""
    mkdirErr := none
    writeErr := none }

/-- C1: the claim says list_cards returns the decoded Cards record on a
successful response whose body matches the Cards shape. In the source,
ApiClient::request ends in a `todo!()` reached on every call (the
`Ok(response)` line below it is commented out), so `list` panics with
`not yet implemented` before any decoding, even though the body of this
response decodes cleanly to a full Cards value, as the second conjunct
shows. -/
theorem list_panics_despite_decodable_body :
    ((ApiClient.new "sk_live_abc").list netC1).1 = Res.panicked "not yet implemented"
    ∧ Cards.fromJson cardsDocC1 = Except.ok cardsValC1 := by
  exact ⟨rfl, rfl⟩

/-- C2: every request the create flow sends carries exactly the JSON body
with the key set `type`, `memo`, `spend_limit`, `spend_limit_duration`,
`state` — the wire name `type` standing for `card_type` — with the fixed
values `SINGLE_USE`, `TRANSACTION`, `OPEN` and the memo and spend limit
taken from the arguments, sent by POST. -/
theorem create_outbound_body_exact (name : String) (amount : Nat) (w : World)
    (path content : String) (req : HttpRequest)
    (hres : get_xdg_data_home w.env = some path)
    (hfile : w.fs path = FileState.file content)
    (hreq : req ∈ (handle_create_command w name amount).calls) :
    req.body = some (Json.obj
      [("type", Json.str "SINGLE_USE"),
       ("memo", Json.str name),
       ("spend_limit", Json.num (amount : Int)),
       ("spend_limit_duration", Json.str "TRANSACTION"),
       ("state", Json.str "OPEN")])
    ∧ req.method = Method.POST := by
  have hex : fsExists w.fs path = true := by simp [fsExists, hfile]
  have hld : fsLoad w.fs path = Except.ok content := by simp [fsLoad, hfile]
  simp only [handle_create_command, hres, hex, hld, ApiClient.create_card, ApiClient.post,
    ApiClient.request, if_true, List.mem_singleton] at hreq
  subst hreq
  exact ⟨rfl, rfl⟩

/-- Witness for C2 at `create "Groceries" 5000` with the stored secret. -/
theorem create_outbound_body_exact_witness :
    reqC2.body = some (Json.obj
      [("type", Json.str "SINGLE_USE"),
       ("memo", Json.str "Groceries"),
       ("spend_limit", Json.num (5000 : Int)),
       ("spend_limit_duration", Json.str "TRANSACTION"),
       ("state", Json.str "OPEN")])
    ∧ reqC2.method = Method.POST :=
  create_outbound_body_exact "Groceries" 5000 wC2 "/data/card/key" "sk_live_abc" reqC2
    rfl rfl (List.Mem.head _)

/-- C4: every request the client issues carries the header
`Authorization: api-key <secret>`, the literal prefix followed by the
secret the client was constructed with. -/
theorem every_request_carries_auth_header (c : ApiClient)
    (net : HttpRequest → HttpResponse) (method : Method) (endpoint : String)
    (body : Option Json) (req : HttpRequest)
    (h : req ∈ (c.request net method endpoint body).2.1) :
    ("Authorization", "api-key " ++ c.api_key) ∈ req.headers := by
  simp only [ApiClient.request, List.mem_singleton] at h
  subst h
  simp [ApiClient.build_request]

/-- Witness for C4 on the GET `cards` request of a client holding
`sk_live_abc`. -/
theorem every_request_carries_auth_header_witness :
    ("Authorization", "api-key " ++ "sk_live_abc") ∈
      (ApiClient.build_request (ApiClient.new "sk_live_abc") Method.GET "cards" none).headers :=
  every_request_carries_auth_header (ApiClient.new "sk_live_abc")
    (fun _ => ⟨200, "", none⟩) Method.GET "cards" none
    (ApiClient.build_request (ApiClient.new "sk_live_abc") Method.GET "cards" none)
    (List.Mem.head _)

/-- C9: saving a secret (which makes it the entire contents of the file,
overwriting any previous state of that path, as the universally
quantified prior filesystem shows) and then loading the same path returns
exactly the saved secret, and the file then exists. -/
theorem credential_save_load_roundtrip (fs : String → FileState) (path secret : String) :
    fsLoad (fsWrite fs path secret) path = Except.ok secret
    ∧ fsExists (fsWrite fs path secret) path = true := by
  constructor
  · simp [fsLoad, fsWrite]
  · simp [fsExists, fsWrite]

/-- Witness for C9 on a fresh filesystem and the standard key path. -/
theorem credential_save_load_roundtrip_witness :
    fsLoad (fsWrite (fun _ => FileState.absent) "/data/card/key" "sk_live_abc") "/data/card/key"
      = Except.ok "sk_live_abc"
    ∧ fsExists (fsWrite (fun _ => FileState.absent) "/data/card/key" "sk_live_abc") "/data/card/key"
      = true :=
  credential_save_load_roundtrip (fun _ => FileState.absent) "/data/card/key" "sk_live_abc"

/-- C3: the default flow keeps exactly the cards whose `state` equals
`"OPEN"` by exact comparison, preserves their original relative order
(the kept list is a sublist of the original), and the printed lines are
exactly the memos of the surviving cards in that order. -/
theorem open_state_filter_spec (cards : Cards) :
    (∀ c, c ∈ openCards cards ↔ c ∈ cards.data ∧ c.state = "OPEN")
    ∧ List.Sublist (openCards cards) cards.data
    ∧ (∀ m, m ∈ defaultMemoLines cards ↔
        ∃ c, c ∈ cards.data ∧ c.state = "OPEN" ∧ c.memo = m) := by
  refine ⟨?_, ?_, ?_⟩
  · intro c
    simp [openCards, List.mem_filter]
  · exact List.filter_sublist _
  · intro m
    constructor
    · intro hm
      rcases List.mem_map.mp hm with ⟨c, hc, hmemo⟩
      rcases List.mem_filter.mp hc with ⟨hdata, hstate⟩
      exact ⟨c, hdata, by simpa using hstate, hmemo⟩
    · rintro ⟨c, hdata, hstate, hmemo⟩
      exact List.mem_map.mpr ⟨c, List.mem_filter.mpr ⟨hdata, by simpa using hstate⟩, hmemo⟩

/-- C5: whenever the credential path resolves but the file is absent, both
the list flow and the create flow print only the guidance to run the auth
flow, make no network call, write nothing to stderr, and terminate
normally. -/
theorem missing_credential_prints_guidance_no_network (w : World) (path : String)
    (name : String) (amount : Nat)
    (hres : get_xdg_data_home w.env = some path)
    (habs : w.fs path = FileState.absent) :
    handle_default_command w = ⟨[guidanceMsg], [], [], ProcOutcome.ok⟩
    ∧ handle_create_command w name amount = ⟨[guidanceMsg], [], [], ProcOutcome.ok⟩ := by
  have hex : fsExists w.fs path = false := by simp [fsExists, habs]
  constructor
  · simp [handle_default_command, hres, hex]
  · simp [handle_create_command, hres, hex]

/-- Witness for C5 on a world whose key file is absent. -/
theorem missing_credential_prints_guidance_no_network_witness :
    handle_default_command wC5 = ⟨[guidanceMsg], [], [], ProcOutcome.ok⟩
    ∧ handle_create_command wC5 "Groceries" 5000 = ⟨[guidanceMsg], [], [], ProcOutcome.ok⟩ :=
  missing_credential_prints_guidance_no_network wC5 "/data/card/key" "Groceries" 5000 rfl rfl

/-- C6: the claim says pan and cvv never appear in the diagnostic output
and the create flow prints only a confirmation. In the source,
ApiClient::request debug-prints the entire raw response body, so when the
service reveals pan `4111111111111111` and cvv `123` both appear on
stdout; moreover the `Card created` confirmation is never printed because
the flow panics at the `todo!()` first. -/
theorem create_flow_echoes_pan_cvv :
    "4111111111111111".toList <:+:
        (String.join (handle_create_command wC6 "Groceries" 5000).stdout).toList
    ∧ "cvv".toList <:+:
        (String.join (handle_create_command wC6 "Groceries" 5000).stdout).toList
    ∧ "123".toList <:+:
        (String.join (handle_create_command wC6 "Groceries" 5000).stdout).toList
    ∧ "Card created" ∉ (handle_create_command wC6 "Groceries" 5000).stdout
    ∧ (handle_create_command wC6 "Groceries" 5000).outcome
        = ProcOutcome.panicked "not yet implemented" := by
  set_option maxRecDepth 100000 in
  refine ⟨by decide, by decide, by decide, by decide, rfl⟩

/-- C7: counterexample to the claim that every resolvable credential path
ends in `card/key`. With `XDG_DATA_HOME` set to `/data`, resolution
returns `/data` verbatim — the source appends nothing in that branch —
and `/data` does not end in `card/key`. -/
theorem xdg_path_counterexample :
    get_xdg_data_home { xdg_data_home := some "/data", home := some "/home/user" }
      = some "/data"
    ∧ ¬ ("card/key".toList <:+ "/data".toList) := by
  exact ⟨rfl, by decide⟩

/-- C7 (amended): resolution prefers `XDG_DATA_HOME` and falls back to
`HOME`, returning `none` only when neither is set; when `XDG_DATA_HOME`
is set, its value is returned verbatim with no `card/key` suffix
appended; only in the `HOME` fallback is the returned path
`${HOME}/.local/share/card/key`, which does end in `card/key`. -/
theorem xdg_resolution_amended (env : Env) :
    (∀ v, env.xdg_data_home = some v → get_xdg_data_home env = some v)
    ∧ (env.xdg_data_home = none →
        (∀ h, env.home = some h →
          get_xdg_data_home env = some (h ++ "/.local/share/card/key")
          ∧ "card/key".toList <:+ (h ++ "/.local/share/card/key").toList)
        ∧ (env.home = none → get_xdg_data_home env = none)) := by
  refine ⟨?_, ?_⟩
  · intro v hv
    simp [get_xdg_data_home, hv]
  · intro hx
    refine ⟨?_, ?_⟩
    · intro h hh
      refine ⟨by simp [get_xdg_data_home, hx, hh], ?_⟩
      have h1 : "card/key".toList <:+ "/.local/share/card/key".toList := by decide
      have h2 : "/.local/share/card/key".toList <:+ (h ++ "/.local/share/card/key").toList := by
        show "/.local/share/card/key".data <:+ (h ++ "/.local/share/card/key").data
        rw [String.data_append]
        exact List.suffix_append _ _
      exact h1.trans h2
    · intro hh
      simp [get_xdg_data_home, hx, hh]

/-- Witness for the amended C7 in the `HOME` fallback case. -/
theorem xdg_resolution_amended_witness :
    get_xdg_data_home { xdg_data_home := none, home := some "/home/user" }
      = some ("/home/user" ++ "/.local/share/card/key")
    ∧ "card/key".toList <:+ ("/home/user" ++ "/.local/share/card/key").toList :=
  ((xdg_resolution_amended { xdg_data_home := none, home := some "/home/user" }).2
    rfl).1 "/home/user" rfl

/-- C8: counterexample to the claim that a browser-open failure is
non-fatal. In the source the failure branch returns at once, so with the
browser failing to open, the flow never reaches the hidden prompt and
saves nothing: the resolved key path is still absent afterwards. -/
theorem auth_browser_failure_counterexample :
    (handle_auth_command wC8).prompted = false
    ∧ (handle_auth_command wC8).fs "/data/card/key" = FileState.absent
    ∧ (handle_auth_command wC8).stderr = ["Failed to open the authentication URL."] := by
  exact ⟨rfl, rfl, rfl⟩

/-- C8 (amended): a failure to open the account URL is reported and fatal
to the auth flow: the flow prints the URL line, reports the failure on
stderr, returns without prompting for the secret, and leaves the
filesystem untouched; the early return itself is a normal exit. -/
theorem auth_browser_failure_fatal (w : World) (hb : w.browserOpens = false) :
    (handle_auth_command w).stdout = [openingMsg]
    ∧ (handle_auth_command w).stderr = ["Failed to open the authentication URL."]
    ∧ (handle_auth_command w).prompted = false
    ∧ (handle_auth_command w).fs = w.fs
    ∧ (handle_auth_command w).outcome = ProcOutcome.ok := by
  simp [handle_auth_command, hb]

/-- Witness for the amended C8 on the failing-browser world. -/
theorem auth_browser_failure_fatal_witness :
    (handle_auth_command wC8).stdout = [openingMsg]
    ∧ (handle_auth_command wC8).stderr = ["Failed to open the authentication URL."]
    ∧ (handle_auth_command wC8).prompted = false
    ∧ (handle_auth_command wC8).fs = wC8.fs
    ∧ (handle_auth_command wC8).outcome = ProcOutcome.ok :=
  auth_browser_failure_fatal wC8 rfl

/-- C10: with at most one argument the process runs the list (default)
flow; when the argument count exceeds one and the parser yields the
`Default` variant — which the explicit `default` subcommand produces, as
the last conjunct shows — dispatch reaches `unreachable!()` and the
process panics instead of listing cards. -/
theorem main_dispatch_default_unreachable (w : World) (argv : List String) :
    (argv.length ≤ 1 → mainRun argv w = flowToMain w (handle_default_command w))
    ∧ (1 < argv.length →
        CommandCard.from_args (argv.drop 1) = some CommandCard.default →
        (mainRun argv w).outcome
          = ProcOutcome.panicked "internal error: entered unreachable code")
    ∧ CommandCard.from_args ["default"] = some CommandCard.default := by
  refine ⟨?_, ?_, rfl⟩
  · intro h
    simp [mainRun, h]
  · intro h1 h2
    have hn : ¬ argv.length ≤ 1 := by omega
    have h2t : CommandCard.from_args argv.tail = some CommandCard.default := by
      rwa [List.drop_one] at h2
    simp [mainRun, hn, h2t]

/-- Witness for C10: invoking the binary as `card default` panics. -/
theorem main_dispatch_default_unreachable_witness :
    (mainRun ["card", "default"] wC10).outcome
      = ProcOutcome.panicked "internal error: entered unreachable code" :=
  (main_dispatch_default_unreachable wC10 ["card", "default"]).2.1 (by decide) rfl
